import Mathlib

/-!
Verification of the OCI image registry compatibility test suite.

The Go sources (`manifest_test.go`, `index_test.go`, `common.go`,
`oci_conformance_test.go` and the ginkgo variants) are shallowly embedded
below.  Pure helpers (`getTestManifest`, `getTestIndex`, `ignoreError`,
`expectError`, `checkError`, `loginToRegistry`, the host-string rewriting of
`TestMain`/`TestConformance`) are translated directly.  The external
collaborators (the regclient push pipeline and the registry itself, the
go-digest parser) are modelled from the specification, as marked on each
definition.
-/

set_option maxRecDepth 100000

namespace OCIConformance

/-- Media type constant `mediatype.OCI1Manifest` from the regclient library. -/
def OCI1Manifest : String := "application/vnd.oci.image.manifest.v1+json"

/-- Media type constant `mediatype.OCI1ManifestList` from the regclient library
(the OCI image index media type). -/
def OCI1ManifestList : String := "application/vnd.oci.image.index.v1+json"

/-- Media type constant `mediatype.OCI1ImageConfig` from the regclient library. -/
def OCI1ImageConfig : String := "application/vnd.oci.image.config.v1+json"

/-- Media type constant `mediatype.OCI1LayerGzip` from the regclient library. -/
def OCI1LayerGzip : String := "application/vnd.oci.image.layer.v1.tar+gzip"

/-- Media type constant `mediatype.OCI1Empty` from the regclient library. -/
def OCI1Empty : String := "application/vnd.oci.empty.v1+json"

/-- `descriptor.Descriptor` (the fields the suite uses).  Go zero values are the
field defaults: empty strings and size `0`. -/
structure Descriptor where
  mediaType : String := ""
  digest : String := ""
  size : Nat := 0
  deriving DecidableEq, Repr

/-- `v1.Manifest` (the fields the suite uses).  Unset optional string fields are
the empty string, as in Go; `subject` is a pointer, so `Option`. -/
structure Manifest where
  schemaVersion : Nat := 0
  mediaType : String := ""
  artifactType : String := ""
  config : Descriptor := {}
  layers : List Descriptor := []
  subject : Option Descriptor := none
  deriving DecidableEq, Repr

/-- `v1.Index` (the fields the suite uses). -/
structure Index where
  schemaVersion : Nat := 0
  mediaType : String := ""
  artifactType : String := ""
  manifests : List Descriptor := []
  deriving DecidableEq, Repr

/-- `ignoreError[T any](val T, _ error) T` from `common.go` / `manifest_test.go`:
returns the value and discards the error argument. -/
def ignoreError {T : Type} (val : T) (_err : Option String) : T := val

/-- Go multi-value call adapter: `ignoreError(f())` where `f` returns
`(T, error)`. -/
def ignoreErrorP {T : Type} (p : T × Option String) : T := ignoreError p.1 p.2

/-- Pass condition of `checkError` from `common.go`: the scenario step succeeds
(no `t.Fatalf`) exactly when the error is absent. -/
def checkErrorPasses (err : Option String) : Bool := err.isNone

/-- Pass condition of `expectError` from `common.go`: the scenario step succeeds
exactly when some error is present; the error text is only logged
(`t.Logf`), never inspected. -/
def expectErrorPasses (err : Option String) : Bool := err.isSome

/-- `pat` is a leading segment of `s` (character lists). -/
def charsLeading : List Char → List Char → Bool
  | [], _ => true
  | _ :: _, [] => false
  | p :: ps, c :: cs => p == c && charsLeading ps cs

/-- `pat` occurs somewhere inside `s` (character lists). -/
def charsHasSub : List Char → List Char → Bool
  | [], pat => charsLeading pat []
  | c :: rest, pat => charsLeading pat (c :: rest) || charsHasSub rest pat

/-- String wrapper for `charsLeading`: `strings.HasPrefix s pat`. -/
def strHasLeading (s pat : String) : Bool := charsLeading pat.data s.data

/-- String wrapper for `charsHasSub`: substring containment. -/
def strHasSub (s pat : String) : Bool := charsHasSub s.data pat.data

/-- `c` is a lowercase hexadecimal digit. -/
def isLowerHexDigit (c : Char) : Bool :=
  (Nat.ble 48 c.toNat && Nat.ble c.toNat 57) || (Nat.ble 97 c.toNat && Nat.ble c.toNat 102)

/-- `cs` is a 64-character lowercase hexadecimal string. -/
def validHex64 (cs : List Char) : Bool := cs.length == 64 && cs.all isLowerHexDigit

/-- Modelled from the spec: `digest.Parse` of the external go-digest utility
(cryptographic digest computation is an external collaborator).  A
`sha256:<64 lowercase hex>` string parses to itself with no error; anything
else yields the zero digest and a format error. -/
def digestParse (s : String) : String × Option String :=
  if charsLeading "sha256:".data s.data && validHex64 (s.data.drop 7) then (s, none)
  else ("", some "invalid checksum digest format")

/-- `getTestManifest` from `manifest_test.go`: the baseline manifest every
manifest scenario starts from.  The digest literals go through
`ignoreError(digest.Parse(...))` exactly as in the source. -/
def getTestManifest : Manifest :=
  { schemaVersion := 2
    config :=
      { mediaType := OCI1ImageConfig
        digest := ignoreErrorP (digestParse
          "sha256:44136fa355b3678a1146ad16f7e8649e94fb4fc21fe77e8310c060f61caaff8a")
        size := 2 }
    layers :=
      [{ mediaType := OCI1LayerGzip
         digest := ignoreErrorP (digestParse
           "sha256:e63246ad2bce533bcfc8cdfcbc936eba500552aa49ff4527204b4c36d99c3e98")
         size := 69 }] }

/-- `getTestIndex` from `index_test.go`: empty manifest list, schema version 2. -/
def getTestIndex : Index := { schemaVersion := 2, manifests := [] }

/-- A payload handed to `client.ManifestPut`: either an OCI manifest or an OCI
index (`manifest.New(manifest.WithOrig(...))` accepts both). -/
inductive Payload where
  | manifest (m : Manifest)
  | index (i : Index)
  deriving DecidableEq, Repr

/-- Concatenate a list of strings. -/
def strJoin : List String → String
  | [] => ""
  | s :: rest => s ++ strJoin rest

/-- Modelled from the spec: serialization of a descriptor, part of the payload
serialization performed by the external push collaborator. -/
def descriptorEncode (d : Descriptor) : String :=
  "desc(" ++ d.mediaType ++ "," ++ d.digest ++ "," ++ toString d.size ++ ")"

/-- Modelled from the spec: serialization of a manifest by the external push
collaborator (a printable injective encoding stands in for canonical JSON). -/
def manifestEncode (m : Manifest) : String :=
  "manifest(" ++ toString m.schemaVersion ++ "," ++ m.mediaType ++ "," ++ m.artifactType ++ ","
    ++ descriptorEncode m.config ++ ",layers(" ++ strJoin (m.layers.map descriptorEncode) ++ "),"
    ++ (match m.subject with
        | none => "nosubject"
        | some d => descriptorEncode d) ++ ")"

/-- Modelled from the spec: serialization of an index by the external push
collaborator. -/
def indexEncode (i : Index) : String :=
  "index(" ++ toString i.schemaVersion ++ "," ++ i.mediaType ++ "," ++ i.artifactType
    ++ ",manifests(" ++ strJoin (i.manifests.map descriptorEncode) ++ "))"

/-- Serialized bytes of a payload. -/
def payloadEncode : Payload → String
  | .manifest m => manifestEncode m
  | .index i => indexEncode i

/-- Modelled from the spec: content digest of a payload, computed by the
external content-addressing utility.  The spec relies only on the digest being
a deterministic function of the serialized payload, so sha256 is modelled as
tagging the serialized bytes. -/
def payloadDigest (p : Payload) : String := "sha256:" ++ payloadEncode p

/-- Size in bytes of the serialized payload. -/
def payloadSize (p : Payload) : Nat := (payloadEncode p).length

/-- Modelled from the spec: the descriptor returned by a successful
`ManifestPut` — the payload's canonical media type, its content digest and its
serialized size (`manifest.GetDescriptor()` on the pushed object). -/
def returnedDescriptor : Payload → Descriptor
  | .manifest m =>
      { mediaType := OCI1Manifest, digest := payloadDigest (.manifest m)
        size := payloadSize (.manifest m) }
  | .index i =>
      { mediaType := OCI1ManifestList, digest := payloadDigest (.index i)
        size := payloadSize (.index i) }

/-- Modelled from the spec: the state of the registry under test — the pushed
blobs (by fixture path) and the pushed manifest/index payloads, most recent
first.  The single shared tag is overwritten by every push; cross-scenario
references are digest-addressed. -/
structure RegistryState where
  blobs : List String := []
  payloads : List Payload := []
  deriving DecidableEq, Repr

/-- The empty registry at the start of a suite run. -/
def initialState : RegistryState := {}

/-- `blobPut` from `common.go`, with the transport modelled from the spec: the
fixture file exists and the upload succeeds, recording the blob. -/
def blobPut (st : RegistryState) (path : String) : RegistryState :=
  { st with blobs := path :: st.blobs }

/-- The error text the push pipeline produces for a payload whose declared
media type is not the expected one (regclient `manifest.New`), as asserted
literally by the ginkgo index scenario. -/
def wrongTypeError (expected received : String) : String :=
  "manifest contains an unexpected media type: expected " ++ expected ++ ", received "
    ++ received

/-- Modelled from the spec: outcome of `manifest.New(WithOrig(m))` followed by
`client.ManifestPut` for a `v1.Manifest`.  A manifest with no media type or the
canonical manifest media type is accepted and its returned descriptor is
content-derived; an unrecognized media type is rejected with an error naming
the expected and received types. -/
def manifestPutResult (m : Manifest) : Except String Descriptor :=
  if m.mediaType = "" ∨ m.mediaType = OCI1Manifest then .ok (returnedDescriptor (.manifest m))
  else .error (wrongTypeError OCI1Manifest m.mediaType)

/-- Modelled from the spec: outcome of the push pipeline for a `v1.Index`,
analogous to `manifestPutResult`. -/
def indexPutResult (i : Index) : Except String Descriptor :=
  if i.mediaType = "" ∨ i.mediaType = OCI1ManifestList then .ok (returnedDescriptor (.index i))
  else .error (wrongTypeError OCI1ManifestList i.mediaType)

/-- `manifestPutOCI` from `manifest_test.go`: push a `v1.Manifest`, returning
the result and the updated registry state (a successful push records the
payload). -/
def manifestPutOCI (st : RegistryState) (m : Manifest) : Except String Descriptor × RegistryState :=
  match manifestPutResult m with
  | .ok d => (.ok d, { st with payloads := Payload.manifest m :: st.payloads })
  | .error e => (.error e, st)

/-- `indexPutOCI` from `index_test.go`: push a `v1.Index`. -/
def indexPutOCI (st : RegistryState) (i : Index) : Except String Descriptor × RegistryState :=
  match indexPutResult i with
  | .ok d => (.ok d, { st with payloads := Payload.index i :: st.payloads })
  | .error e => (.error e, st)

/-- `manifestPutOCI` in abort-on-error form, for scenario steps guarded by
`checkError` (which calls `t.Fatalf` and ends the scenario). -/
def manifestPutE (st : RegistryState) (m : Manifest) :
    Except String (Descriptor × RegistryState) :=
  match manifestPutOCI st m with
  | (.ok d, st') => .ok (d, st')
  | (.error e, _) => .error e

/-- `indexPutOCI` in abort-on-error form. -/
def indexPutE (st : RegistryState) (i : Index) : Except String (Descriptor × RegistryState) :=
  match indexPutOCI st i with
  | (.ok d, st') => .ok (d, st')
  | (.error e, _) => .error e

/-- The error component of a push result, as handed to `checkError` or
`expectError`. -/
def exceptErr {α : Type} : Except String α → Option String
  | .ok _ => none
  | .error e => some e

/-- The success component of a scenario run. -/
def runOk {α : Type} : Except String α → Option α
  | .ok a => some a
  | .error _ => none

/-- Modelled from the spec: digest-addressed retrieval from the registry (the
design relies on digest-addressed lookups; the most recently pushed payload
with the requested digest is returned). -/
def manifestGet (st : RegistryState) (dg : String) : Option Payload :=
  st.payloads.find? (fun p => payloadDigest p == dg)

/-- C6: `getTestManifest` returns a manifest with `schemaVersion = 2`, no
`mediaType` set (Go zero value, the empty string), `config.mediaType` equal to
the canonical OCI image-config media type, and exactly one layer whose media
type is the canonical gzip-layer media type. -/
theorem getTestManifest_baseline_shape :
    getTestManifest.schemaVersion = 2 ∧
    getTestManifest.mediaType = "" ∧
    getTestManifest.config.mediaType = OCI1ImageConfig ∧
    getTestManifest.layers.map Descriptor.mediaType = [OCI1LayerGzip] := by
  decide

/-- Replace the first occurrence of `pat` in `s` by `rep` (character lists);
`strings.Replace(s, pat, rep, 1)` for nonempty `pat`. -/
def listReplaceFirst : List Char → List Char → List Char → List Char
  | [], _, _ => []
  | c :: rest, pat, rep =>
      if charsLeading pat (c :: rest) then rep ++ (c :: rest).drop pat.length
      else c :: listReplaceFirst rest pat rep

/-- String wrapper for `listReplaceFirst`. -/
def strReplaceFirst (s pat rep : String) : String :=
  ⟨listReplaceFirst s.data pat.data rep.data⟩

/-- The manifest of `testNoManifestMediaType`: the unmodified baseline. -/
def noManifestMediaType_m : Manifest := getTestManifest

/-- The manifest of `testDefaultMediaType` (and the first manifest of several
other scenarios): baseline with `mediaType` set to the canonical manifest
media type. -/
def defaultMediaType_m : Manifest := { getTestManifest with mediaType := OCI1Manifest }

/-- The manifest of `testDefaultConfigType`: identical construction to
`testDefaultMediaType` (the config media type is already the canonical one in
the baseline). -/
def defaultConfigType_m : Manifest := { getTestManifest with mediaType := OCI1Manifest }

/-- The manifest of `testEmptyConfigFileAndArtifactType`: canonical
`mediaType`, custom `artifactType`, and `config.mediaType` blanked to the OCI
empty type. -/
def emptyConfigFileAndArtifactType_m : Manifest :=
  { getTestManifest with
      mediaType := OCI1Manifest
      artifactType := "application/my-artifact"
      config := { getTestManifest.config with mediaType := OCI1Empty } }

/-- The manifest of `testArtifactTypeOverConfigType`: canonical `mediaType`
and a custom `config.mediaType`. -/
def artifactTypeOverConfigType_m : Manifest :=
  { getTestManifest with
      mediaType := OCI1Manifest
      config := { getTestManifest.config with mediaType := "application/my-artifact-legacy" } }

/-- `m.Layers[0].MediaType = mt` on a manifest's layer list. -/
def setHeadMediaType (ls : List Descriptor) (mt : String) : List Descriptor :=
  match ls with
  | [] => []
  | d :: rest => { d with mediaType := mt } :: rest

/-- The manifest of `testBlobMediaType`: canonical `mediaType` and a custom
`layers[0].mediaType`. -/
def blobMediaType_m : Manifest :=
  { getTestManifest with
      mediaType := OCI1Manifest
      layers := setHeadMediaType getTestManifest.layers "application/my-blob-format" }

/-- The manifest of `testWrongManifestMediaTypeFails`: baseline with the
unrecognized media type. -/
def wrongManifestMediaType_m : Manifest :=
  { getTestManifest with mediaType := "application/wrong.type+json" }

/-- The returned descriptor of pushing the canonical-media-type baseline
manifest (the first push of the subject scenario and the push inside
`getTestManifests`). -/
def firstReturned : Descriptor := returnedDescriptor (.manifest defaultMediaType_m)

/-- The second manifest of `testManifestWithSubjectEntry`: baseline with
canonical `mediaType` and `subject` carrying the first push's returned digest
and size. -/
def subjectSecond_m : Manifest :=
  { getTestManifest with
      mediaType := OCI1Manifest
      subject := some { mediaType := OCI1Manifest, digest := firstReturned.digest
                        size := firstReturned.size } }

/-- The media type of a manifest's first layer, if any. -/
def layersHeadMediaType (m : Manifest) : Option String :=
  m.layers.head?.map Descriptor.mediaType

/-- Number of non-`mediaType` fields among `artifactType`, `config.mediaType`,
`layers[0].mediaType`, `subject` that differ from the baseline manifest. -/
def semanticMutationCount (m : Manifest) : Nat :=
  (if m.artifactType = getTestManifest.artifactType then 0 else 1) +
  (if m.config.mediaType = getTestManifest.config.mediaType then 0 else 1) +
  (if layersHeadMediaType m = layersHeadMediaType getTestManifest then 0 else 1) +
  (if m.subject = getTestManifest.subject then 0 else 1)

/-- Number of fields among `mediaType`, `artifactType`, `config.mediaType`,
`layers[0].mediaType`, `subject` that differ from the baseline manifest. -/
def mutatedFieldCount (m : Manifest) : Nat :=
  (if m.mediaType = getTestManifest.mediaType then 0 else 1) + semanticMutationCount m

/-- C2 (counterexample): the claim "for each scenario, at most one of
mediaType, artifactType, config.mediaType, layers[0].mediaType, subject
differs from the baseline" fails on `testEmptyConfigFileAndArtifactType`,
whose manifest differs from the baseline in three of those fields
(`mediaType`, `artifactType` and `config.mediaType`). -/
theorem emptyConfig_scenario_mutates_three_fields :
    ¬ mutatedFieldCount emptyConfigFileAndArtifactType_m ≤ 1 := by
  decide

/-- C2 (amended): every manifest scenario applies at most one field mutation
besides setting the top-level `mediaType`, except the empty-config scenario,
which couples the custom `artifactType` with the blanked `config.mediaType`
(their joint presence is what the OCI clause under test requires); layers and
subject stay at baseline there. -/
theorem scenario_mutations_at_most_one_besides_mediaType :
    semanticMutationCount noManifestMediaType_m = 0 ∧
    semanticMutationCount defaultMediaType_m = 0 ∧
    semanticMutationCount defaultConfigType_m = 0 ∧
    semanticMutationCount emptyConfigFileAndArtifactType_m = 2 ∧
    emptyConfigFileAndArtifactType_m.artifactType ≠ getTestManifest.artifactType ∧
    emptyConfigFileAndArtifactType_m.config.mediaType ≠ getTestManifest.config.mediaType ∧
    layersHeadMediaType emptyConfigFileAndArtifactType_m = layersHeadMediaType getTestManifest ∧
    emptyConfigFileAndArtifactType_m.subject = getTestManifest.subject ∧
    semanticMutationCount artifactTypeOverConfigType_m = 1 ∧
    semanticMutationCount blobMediaType_m = 1 ∧
    semanticMutationCount wrongManifestMediaType_m = 0 ∧
    semanticMutationCount subjectSecond_m = 1 := by
  decide

/-- C5: pushing the same manifest (resp. index) payload yields the same result
— in particular the same returned digest — independently of the registry
state, so re-pushing an identical payload returns the digest of the first
push (content-addressing determinism, modelled from the spec). -/
theorem push_result_deterministic (st st' : RegistryState) (m : Manifest) (i : Index) :
    (manifestPutOCI st m).1 = (manifestPutOCI st' m).1 ∧
    (indexPutOCI st i).1 = (indexPutOCI st' i).1 ∧
    (manifestPutOCI (manifestPutOCI st m).2 m).1 = (manifestPutOCI st m).1 ∧
    (indexPutOCI (indexPutOCI st i).2 i).1 = (indexPutOCI st i).1 := by
  cases hm : manifestPutResult m <;> cases hi : indexPutResult i <;>
    simp [manifestPutOCI, indexPutOCI, hm, hi]

/-- C5 (witness): re-pushing the baseline manifest returns the same result as
the first push, evaluated at the canonical-media-type baseline manifest and
the empty index from the empty registry. -/
theorem push_result_deterministic_witness :
    (manifestPutOCI (manifestPutOCI initialState defaultMediaType_m).2 defaultMediaType_m).1
      = (manifestPutOCI initialState defaultMediaType_m).1 :=
  (push_result_deterministic initialState initialState defaultMediaType_m getTestIndex).2.2.1

/-- C8 (counterexample): the claim that no error is silently discarded — in
particular that digest-parsing results are not dropped — fails on
`ignoreError`, the helper through which `getTestManifest` routes every
`digest.Parse` result: at the concrete invalid input `"sha256:xyz"` the parse
reports an error, yet `ignoreError` returns the same value as if no error had
occurred, so the error is dropped unexamined. -/
theorem ignoreError_discards_digest_parse_error :
    (digestParse "sha256:xyz").2.isSome = true ∧
    ignoreErrorP (digestParse "sha256:xyz") = ignoreErrorP ((digestParse "sha256:xyz").1, none) := by
  decide

/-- C8 (amended): push and assertion outcomes are inspected — `checkError`
passes exactly on absence of an error and `expectError` exactly on presence —
but the results of digest parsing and JSON marshalling are routed through
`ignoreError`, whose output never depends on the error component: those errors
are silently discarded. -/
theorem errors_inspected_except_ignoreError (T : Type) (v : T) (e : Option String) :
    ignoreError v e = v ∧
    checkErrorPasses e = e.isNone ∧
    expectErrorPasses e = e.isSome :=
  ⟨rfl, rfl, rfl⟩

/-- C8 (witness): evaluated at a present error: `ignoreError` drops it while
the assertion helpers inspect it. -/
theorem errors_inspected_except_ignoreError_witness :
    ignoreError 7 (some "boom") = 7 ∧
    checkErrorPasses (some "boom") = (some "boom").isNone ∧
    expectErrorPasses (some "boom") = (some "boom").isSome :=
  errors_inspected_except_ignoreError Nat 7 (some "boom")

/-- Outcome of the wrong-manifest-mediaType scenario: the built manifest, the
raw push result, the `expectError` verdict and the final registry state. -/
structure WrongManifestRun where
  builtManifest : Manifest
  pushResult : Except String Descriptor
  passed : Bool
  finalState : RegistryState
  deriving Repr

/-- `testWrongManifestMediaTypeFails` from `manifest_test.go`: push the fixture
blobs, build the baseline manifest with `mediaType` set to the unrecognized
string, push it, and judge the outcome with `expectError`. -/
def testWrongManifestMediaTypeFails (st : RegistryState) : WrongManifestRun :=
  let st := blobPut st "test-data/demo-artifact.txt"
  let st := blobPut st "test-data/demo-config.txt"
  let m := wrongManifestMediaType_m
  let (r, st) := manifestPutOCI st m
  { builtManifest := m, pushResult := r, passed := expectErrorPasses (exceptErr r)
    finalState := st }

/-- The error text produced for the wrong-mediaType manifest push. -/
def wrongManifestTypeError : String := wrongTypeError OCI1Manifest "application/wrong.type+json"

/-- The error text the ginkgo index scenario requires verbatim via
`MatchError`, and the analogous manifest-type text. -/
def wrongIndexTypeError : String := wrongTypeError OCI1ManifestList "application/wrong.type+json"

/-- The error text states both the expected manifest media type and the
received wrong media type. -/
def errorStatesBothManifestTypes (e : String) : Bool :=
  strHasSub e OCI1Manifest && strHasSub e "application/wrong.type+json"

/-- C1 (counterexample): the claim that the scenario passes exactly when the
push fails with an error text stating both media types is false: `expectError`
(which alone decides the verdict in `testWrongManifestMediaTypeFails`) passes
on the concrete error "connection refused", whose text states neither media
type. -/
theorem expectError_passes_without_mediaType_text :
    expectErrorPasses (some "connection refused") = true ∧
    errorStatesBothManifestTypes "connection refused" = false := by
  decide

/-- C1 (amended): the wrong-manifest-mediaType push fails, and (under the
spec's model of the push pipeline) its error text states both the expected and
the received media types; the scenario, however, passes exactly when the push
fails with any error — `expectError` only checks that an error is present and
logs its text without inspecting it. -/
theorem wrongManifestMediaType_scenario (st : RegistryState) (e : Option String) :
    (testWrongManifestMediaTypeFails st).pushResult = .error wrongManifestTypeError ∧
    errorStatesBothManifestTypes wrongManifestTypeError = true ∧
    (testWrongManifestMediaTypeFails st).passed = true ∧
    expectErrorPasses e = e.isSome :=
  ⟨rfl, by decide, rfl, rfl⟩

/-- C1 (witness): the scenario evaluated from the empty registry, with the
`expectError` conjunct at the concrete absent error. -/
theorem wrongManifestMediaType_scenario_witness :
    (testWrongManifestMediaTypeFails initialState).pushResult = .error wrongManifestTypeError ∧
    errorStatesBothManifestTypes wrongManifestTypeError = true ∧
    (testWrongManifestMediaTypeFails initialState).passed = true ∧
    expectErrorPasses none = Option.isSome (none : Option String) :=
  wrongManifestMediaType_scenario initialState none

/-- `getTestManifests` from `index_test.go`: push the fixture blobs, push the
canonical-media-type baseline manifest, and return the single index entry
built from its returned digest (the struct literal sets only `MediaType` and
`Digest`, so `Size` stays at the Go zero value).  `checkError` aborts are the
`Except` error case. -/
def getTestManifests (st : RegistryState) : Except String (List Descriptor × RegistryState) := do
  let st := blobPut st "test-data/demo-file.txt"
  let st := blobPut st "test-data/demo-config.txt"
  let m := { getTestManifest with mediaType := OCI1Manifest }
  let (d, st) ← manifestPutE st m
  .ok ([{ mediaType := OCI1Manifest, digest := d.digest }], st)

/-- C10: the index entry produced by `getTestManifests` carries only the
manifest media type and the returned digest; its size is left at zero even
though the pushed manifest's actual size is nonzero. -/
theorem getTestManifests_entry_size_zero (st : RegistryState) :
    (runOk (getTestManifests st)).map Prod.fst
      = some [{ mediaType := OCI1Manifest, digest := firstReturned.digest, size := 0 }] ∧
    firstReturned.size ≠ 0 :=
  ⟨rfl, by decide⟩

/-- C10 (witness): evaluated from the empty registry. -/
theorem getTestManifests_entry_size_zero_witness :
    (runOk (getTestManifests initialState)).map Prod.fst
      = some [{ mediaType := OCI1Manifest, digest := firstReturned.digest, size := 0 }] :=
  (getTestManifests_entry_size_zero initialState).1

/-- Outcome of the wrong-index-mediaType scenario. -/
structure WrongIndexRun where
  builtIndex : Index
  pushResult : Except String Descriptor
  passed : Bool
  finalState : RegistryState
  deriving Repr

/-- `testWrongIndexMediaTypeFails` from `index_test.go` (and its ginkgo variant
in the unnamed source): build manifests via `getTestManifests`, set the index
media type to the unrecognized string, push, and judge the outcome. -/
def testWrongIndexMediaTypeFails (st : RegistryState) : Except String WrongIndexRun := do
  let (manifests, st) ← getTestManifests st
  let i := { getTestIndex with mediaType := "application/wrong.type+json", manifests := manifests }
  let (r, st2) := indexPutOCI st i
  .ok { builtIndex := i, pushResult := r, passed := expectErrorPasses (exceptErr r)
        finalState := st2 }

/-- C3 (counterexample): the claim that the wrong-index-mediaType scenario
pushes an index whose manifests list is empty is false: run from the empty
registry, the built index's manifests list is nonempty (it holds the
descriptor of the just-pushed baseline manifest). -/
theorem wrongIndex_manifests_not_empty :
    (runOk (testWrongIndexMediaTypeFails initialState)).map
      (fun r => r.builtIndex.manifests.isEmpty) = some false := by
  decide

/-- C3 (amended): the wrong-index-mediaType scenario pushes an index whose
manifests list contains exactly one entry — the descriptor of a just-pushed
baseline manifest — and whose media type is the unrecognized string; the push
fails with exactly the index-type error text that the ginkgo variant requires
verbatim (the `testing` variant accepts any error), and the scenario passes. -/
theorem wrongIndexMediaType_scenario (st : RegistryState) :
    (runOk (testWrongIndexMediaTypeFails st)).map WrongIndexRun.builtIndex
      = some { getTestIndex with
                 mediaType := "application/wrong.type+json"
                 manifests := [{ mediaType := OCI1Manifest, digest := firstReturned.digest }] } ∧
    (runOk (testWrongIndexMediaTypeFails st)).map WrongIndexRun.pushResult
      = some (.error wrongIndexTypeError) ∧
    wrongIndexTypeError = "manifest contains an unexpected media type: expected application/vnd.oci.image.index.v1+json, received application/wrong.type+json" ∧
    (runOk (testWrongIndexMediaTypeFails st)).map WrongIndexRun.passed = some true :=
  ⟨rfl, rfl, rfl, rfl⟩

/-- C3 (witness): the scenario evaluated from the empty registry passes. -/
theorem wrongIndexMediaType_scenario_witness :
    (runOk (testWrongIndexMediaTypeFails initialState)).map WrongIndexRun.passed = some true :=
  (wrongIndexMediaType_scenario initialState).2.2.2

/-- Outcome of the subject scenario. -/
structure SubjectRun where
  firstDescriptor : Descriptor
  secondManifest : Manifest
  secondDescriptor : Descriptor
  finalState : RegistryState
  deriving Repr

/-- `testManifestWithSubjectEntry` from `manifest_test.go`: push the fixture
blobs, push manifest A (baseline with canonical media type), build manifest B
whose `subject` carries A's returned digest and size and the manifest media
type, and push B. -/
def testManifestWithSubjectEntry (st : RegistryState) : Except String SubjectRun := do
  let st := blobPut st "test-data/demo-artifact.txt"
  let st := blobPut st "test-data/demo-config.txt"
  let m := { getTestManifest with mediaType := OCI1Manifest }
  let (first_manifest, st) ← manifestPutE st m
  let subject : Descriptor :=
    { mediaType := OCI1Manifest, digest := first_manifest.digest, size := first_manifest.size }
  let m := { getTestManifest with mediaType := OCI1Manifest, subject := some subject }
  let (second, st) ← manifestPutE st m
  .ok { firstDescriptor := first_manifest, secondManifest := m, secondDescriptor := second
        finalState := st }

/-- The `subject.digest` of a retrieved payload, when it is a manifest with a
subject. -/
def Payload.subjectDigest : Payload → Option String
  | .manifest m => m.subject.map Descriptor.digest
  | .index _ => none

/-- C4: in the subject scenario, manifest B is constructed with `subject`
digest and size equal to A's returned descriptor's digest and size, the push
of B succeeds (the run returns `some`), and retrieving B from the final
registry state by its returned digest yields a payload whose `subject.digest`
equals A's returned digest. -/
theorem subject_scenario (st : RegistryState) :
    (runOk (testManifestWithSubjectEntry st)).map SubjectRun.firstDescriptor
      = some firstReturned ∧
    (runOk (testManifestWithSubjectEntry st)).map SubjectRun.secondManifest
      = some subjectSecond_m ∧
    subjectSecond_m.subject = some { mediaType := OCI1Manifest, digest := firstReturned.digest
                                     size := firstReturned.size } ∧
    (runOk (testManifestWithSubjectEntry st)).map
        (fun r => manifestGet r.finalState r.secondDescriptor.digest)
      = some (some (Payload.manifest subjectSecond_m)) ∧
    (Payload.manifest subjectSecond_m).subjectDigest = some firstReturned.digest :=
  ⟨rfl, rfl, rfl, rfl, rfl⟩

/-- C4 (witness): the subject scenario evaluated from the empty registry
builds B as described. -/
theorem subject_scenario_witness :
    (runOk (testManifestWithSubjectEntry initialState)).map SubjectRun.secondManifest
      = some subjectSecond_m :=
  (subject_scenario initialState).2.1

/-- Outcome of the nested-index scenario. -/
structure NestedRun where
  innerIndex : Index
  innerDescriptor : Descriptor
  stateBeforeOuter : RegistryState
  outerIndex : Index
  outerDescriptor : Descriptor
  finalState : RegistryState
  deriving Repr

/-- `testNestedIndexes` from `index_test.go` (and its ginkgo variant): push a
baseline manifest, push the inner index referencing it, capture its returned
descriptor, then build the outer index whose single entry carries the inner
index's digest, size and the index media type, and push it. -/
def testNestedIndexes (st : RegistryState) : Except String NestedRun := do
  let (manifests, st) ← getTestManifests st
  let i := { getTestIndex with mediaType := OCI1ManifestList, manifests := manifests }
  let (nestedIndex, st) ← indexPutE st i
  let stMid := st
  let i2 := { getTestIndex with mediaType := OCI1ManifestList }
  let nestedIndexDesc : Descriptor :=
    { mediaType := OCI1ManifestList, digest := nestedIndex.digest, size := nestedIndex.size }
  let i2 := { i2 with manifests := i2.manifests ++ [nestedIndexDesc] }
  let (outerD, st) ← indexPutE st i2
  .ok { innerIndex := i, innerDescriptor := nestedIndex, stateBeforeOuter := stMid
        outerIndex := i2, outerDescriptor := outerD, finalState := st }

/-- The inner index built by the nested-index scenario. -/
def innerIndexVal : Index :=
  { getTestIndex with
      mediaType := OCI1ManifestList
      manifests := [{ mediaType := OCI1Manifest, digest := firstReturned.digest }] }

/-- The returned descriptor of pushing the inner index. -/
def innerReturned : Descriptor := returnedDescriptor (.index innerIndexVal)

/-- C7: in the nested-index scenario the inner index has already been pushed —
it sits in the registry state from which the outer push starts — and its
returned descriptor is what the outer index's single manifests entry carries
(digest, size, and the index media type); the outer push succeeds (the run
returns `some`). -/
theorem nested_index_scenario (st : RegistryState) :
    (runOk (testNestedIndexes st)).map NestedRun.innerDescriptor = some innerReturned ∧
    (runOk (testNestedIndexes st)).map (fun r => r.stateBeforeOuter.payloads)
      = some (Payload.index innerIndexVal
              :: Payload.manifest defaultMediaType_m :: st.payloads) ∧
    (runOk (testNestedIndexes st)).map NestedRun.outerIndex
      = some { getTestIndex with
                 mediaType := OCI1ManifestList
                 manifests := [{ mediaType := OCI1ManifestList, digest := innerReturned.digest
                                 size := innerReturned.size }] } ∧
    (runOk (testNestedIndexes st)).map NestedRun.outerDescriptor
      = some (returnedDescriptor (.index
          { getTestIndex with
              mediaType := OCI1ManifestList
              manifests := [{ mediaType := OCI1ManifestList, digest := innerReturned.digest
                              size := innerReturned.size }] })) :=
  ⟨rfl, rfl, rfl, rfl⟩

/-- C7 (witness): the nested-index scenario evaluated from the empty registry
captures the inner index's returned descriptor. -/
theorem nested_index_scenario_witness :
    (runOk (testNestedIndexes initialState)).map NestedRun.innerDescriptor = some innerReturned :=
  (nested_index_scenario initialState).1

/-- TLS setting of a configured registry host (`config.TLSDisabled` versus the
library default, which enables TLS). -/
inductive TLSMode where
  | enabled
  | disabled
  deriving DecidableEq, Repr

/-- `config.Host` (the fields `loginToRegistry` sets); the TLS field keeps the
library default unless explicitly disabled. -/
structure ConfigHost where
  name : String
  user : String
  pass : String
  tls : TLSMode := .enabled
  deriving DecidableEq, Repr

/-- `loginToRegistry` from `common.go`: build the host configuration and
disable TLS exactly when the `tls` argument is false. -/
def loginToRegistry (host user password : String) (tls : Bool) : ConfigHost :=
  let configHost : ConfigHost := { name := host, user := user, pass := password }
  if !tls then { configHost with tls := .disabled } else configHost

/-- The host string after the two `strings.Replace(..., 1)` calls of
`TestMain`/`TestConformance`: first occurrence of "http://" removed, then
first occurrence of "https://" removed. -/
def strippedHost (host : String) : String :=
  strReplaceFirst (strReplaceFirst host "http://" "") "https://" ""

/-- Follows the spec's words for comparison: strip a scheme prefix ("http://"
or "https://") from the front of the host, leaving other hosts unchanged. -/
def schemePrefixStripped (host : String) : String :=
  if strHasLeading host "http://" then ⟨host.data.drop 7⟩
  else if strHasLeading host "https://" then ⟨host.data.drop 8⟩
  else host

/-- The registry setup of `TestMain` (`manifest_test.go`) and `TestConformance`
(`oci_conformance_test.go`): log in with TLS decided by the "http://" prefix
test, rewrite the host, and build the shared tag reference string passed to
`ref.New`. -/
def testMainSetup (host user password ns : String) : ConfigHost × String :=
  let client := loginToRegistry host user password (!(strHasLeading host "http://"))
  let host := strippedHost host
  (client, host ++ "/" ++ ns ++ ":demo")

/-- C9 (counterexample): the claim that the reference is built from the host
with any scheme prefix stripped is false at the concrete host "a.http://b":
the host has no scheme prefix, yet `strings.Replace` rewrites its interior, so
the reference built by the code differs from the one the claim describes. -/
theorem reference_not_prefix_stripping :
    (testMainSetup "a.http://b" "user" "pass" "ns").2
      ≠ schemePrefixStripped "a.http://b" ++ "/" ++ "ns" ++ ":demo" := by
  decide

/-- C9 (amended): the client is configured with TLS disabled exactly when the
configured host starts with "http://"; before the shared tag reference is
built, the first occurrence of "http://" and then the first occurrence of
"https://" anywhere in the host are removed (which coincides with stripping a
scheme prefix whenever a scheme occurs only at the front), and the reference
string equals the rewritten host, "/", the namespace, and the fixed tag
":demo". -/
theorem testMain_tls_and_reference (host user password ns : String) :
    ((testMainSetup host user password ns).1.tls = TLSMode.disabled
      ↔ strHasLeading host "http://" = true) ∧
    (testMainSetup host user password ns).2 = strippedHost host ++ "/" ++ ns ++ ":demo" := by
  constructor
  · cases h : strHasLeading host "http://" <;>
      simp [testMainSetup, loginToRegistry, h]
  · rfl

/-- C9 (witness): the setup evaluated at a concrete plain-HTTP host builds the
reference from the rewritten host. -/
theorem testMain_tls_and_reference_witness :
    (testMainSetup "http://localhost:5000" "user" "pass" "ns").2
      = strippedHost "http://localhost:5000" ++ "/" ++ "ns" ++ ":demo" :=
  (testMain_tls_and_reference "http://localhost:5000" "user" "pass" "ns").2

end OCIConformance
